import Mathlib

/-!
Shallow embedding of the hardened Cloudflare Worker proxy in
src/examples/weather-proxy-worker.ts: bearer authentication, path/endpoint
allow-listing, query policy, HMAC signed-request verification with a nonce
replay cache, in-memory and coordinated (durable-object) rate limiting, and
upstream forwarding.

JavaScript numbers that matter here are modelled as `Option ℚ` (`none`
standing for a non-finite result, i.e. NaN or ±Infinity); machine time is an
integer count of milliseconds.  The external HMAC-SHA256 primitive
(crypto.subtle) and the two network collaborators (the upstream weather API
and the durable-object stub) are parameters of the embedding.
-/

namespace WeatherProxy

/-- Value of a list of decimal digit characters, most significant first. -/
def decVal (l : List Char) : Nat :=
  l.foldl (fun a c => a * 10 + (c.toNat - 48)) 0

/-- Core of the JS `Number(string)` conversion on an unsigned body:
an optionally empty run of digits, optionally followed by `.` and more
digits.  `none` models a non-finite result (NaN). -/
def jsNumCore (cs : List Char) : Option ℚ :=
  let intPart := cs.takeWhile Char.isDigit
  let rest := cs.dropWhile Char.isDigit
  match rest with
  | [] => if intPart = [] then none else some (decVal intPart)
  | '.' :: fr =>
      if fr.all Char.isDigit ∧ (intPart ≠ [] ∨ fr ≠ []) then
        some ((decVal intPart : ℚ) + (decVal fr : ℚ) / (10 : ℚ) ^ fr.length)
      else none
  | _ => none

/-- Model of the JS `Number(string)` conversion, restricted to optionally
signed decimal literals (the inputs this gateway ever feeds it); the empty
string converts to 0, anything unparsable to `none` (not finite). -/
def jsNumber (s : String) : Option ℚ :=
  match s.data with
  | [] => some 0
  | '-' :: cs => (jsNumCore cs).map (fun q => -q)
  | '+' :: cs => jsNumCore cs
  | cs => jsNumCore cs

/-- JS falsiness of a nullable string: `null`/absent and `""` are falsy. -/
def jsFalsy : Option String → Bool
  | none => true
  | some s => s == ""

/-- The JS idiom `x || d` on a nullable string: the default replaces both
`null` and the empty string. -/
def jsOrStr : Option String → String → String
  | none, d => d
  | some s, d => if s = "" then d else s

/-- Lower-casing a string character by character (the model of
`String.toLowerCase` used by `toBool`). -/
def toLowerStr (s : String) : String :=
  String.mk (s.data.map Char.toLower)

/-- `toBool` from the source: `(v || "").toLowerCase() === "true"`. -/
def toBool (v : Option String) : Bool :=
  toLowerStr (jsOrStr v "") == "true"

/-- `s.startsWith(p)` on the underlying character lists. -/
def strStartsWith (s p : String) : Bool :=
  List.isPrefixOf p.data s.data

/-- `s.slice(n)` (drop the first `n` characters) on the underlying
character list; the paths handled here are ASCII, where JS string indices
and characters coincide. -/
def strDrop (s : String) (n : Nat) : String :=
  String.mk (s.data.drop n)

/-- One entry of the in-memory rate bucket: `{ count, windowStart }`
(`windowStart` in milliseconds). -/
structure RateEntry where
  count : Nat
  windowStart : Int
deriving Repr, DecidableEq

/-- The worker's module-level mutable maps: `rateBucket` and `nonceSeen`
(the latter maps a `clientId:nonce` composite to its expiry in seconds). -/
structure WorkerState where
  rateBucket : String → Option RateEntry
  nonceSeen : String → Option Int

/-- The `Env` bindings of the worker.  `RATE_LIMITER` records only whether
the durable-object binding is present. -/
structure Env where
  WEATHER_API_KEY : String
  WEATHER_PROXY_BEARER_TOKEN : String
  WEATHER_PROXY_SIGNING_SECRET : Option String
  ALLOWED_PROXY_CLIENT_ID : Option String
  REQUIRE_SIGNED_REQUESTS : Option String
  MAX_REQUESTS_PER_MINUTE : Option String
  RATE_LIMITER : Bool

/-- The parts of an inbound `Request` the worker reads: the relevant
headers (each `none` when absent), the URL path, the raw query string
(`url.search`) and the parsed query pairs (`url.searchParams`, in order). -/
structure Req where
  authorization : Option String
  urlPathname : String
  urlSearch : String
  searchParams : List (String × String)
  hTimestamp : Option String
  hNonce : Option String
  hSignature : Option String
  hClientId : Option String
  cfConnectingIp : Option String

/-- `clientIp`: the `cf-connecting-ip` header or `"unknown"`. -/
def clientIp (req : Req) : String :=
  jsOrStr req.cfConnectingIp "unknown"

/-- `cleanNonceCache(nowSec)`: delete every entry whose expiry `≤ nowSec`. -/
def cleanNonceCache (nowSec : Int) (m : String → Option Int) : String → Option Int :=
  fun k => match m k with
    | some exp => if exp ≤ nowSec then none else some exp
    | none => none

/-- `isRateLimitedInMemory(key, maxPerMinute)` at time `now` (ms), acting on
the `rateBucket` map; returns the limited verdict and the updated map. -/
def isRateLimitedInMemory (key : String) (maxPerMinute : ℚ) (now : Int)
    (rb : String → Option RateEntry) : Bool × (String → Option RateEntry) :=
  let windowMs : Int := 60000
  match rb key with
  | none => (false, Function.update rb key (some ⟨1, now⟩))
  | some entry =>
      if now - entry.windowStart ≥ windowMs then
        (false, Function.update rb key (some ⟨1, now⟩))
      else
        (decide (((entry.count + 1 : ℕ) : ℚ) > maxPerMinute),
         Function.update rb key (some ⟨entry.count + 1, entry.windowStart⟩))

/-- `validateQuery(endpoint, params)` from the source.  `paramsGet` mirrors
`URLSearchParams.get`: first value for the key, or `null`. -/
def paramsGet (ps : List (String × String)) (k : String) : Option String :=
  (ps.find? (fun p => p.1 == k)).map Prod.snd

def validateQuery (endpoint : String) (ps : List (String × String)) : Bool :=
  let q := (paramsGet ps "q").getD ""
  if q.length > 120 then false
  else if endpoint = "forecast.json" then
    match jsNumber (jsOrStr (paramsGet ps "days") "1") with
    | none => false
    | some days => if days < 1 ∨ days > 10 then false else true
  else true

/-- `verifySignature(request, env, pathAndQuery)` at time `nowMs`, acting on
the `nonceSeen` cache; `hmac` abstracts HMAC-SHA256 followed by unpadded
base64url encoding (`toBase64Url ∘ crypto.subtle.sign`), as a function of
the secret and the canonical payload.  Returns the verdict and the updated
cache. -/
def verifySignature (hmac : String → String → String) (req : Req) (env : Env)
    (pathAndQuery : String) (nowMs : Int) (n0 : String → Option Int) :
    Bool × (String → Option Int) :=
  if jsFalsy env.WEATHER_PROXY_SIGNING_SECRET then (false, n0)
  else
    let clientId := jsOrStr req.hClientId "default"
    if jsFalsy req.hTimestamp ∨ jsFalsy req.hNonce ∨ jsFalsy req.hSignature then (false, n0)
    else
      let tsS := req.hTimestamp.getD ""
      let nonceS := req.hNonce.getD ""
      let sigS := req.hSignature.getD ""
      if ¬ jsFalsy env.ALLOWED_PROXY_CLIENT_ID ∧
          clientId ≠ env.ALLOWED_PROXY_CLIENT_ID.getD "" then (false, n0)
      else
        let now : Int := Int.fdiv nowMs 1000
        match jsNumber tsS with
        | none => (false, n0)
        | some tsNum =>
            if |(now : ℚ) - tsNum| > 90 then (false, n0)
            else
              let cache := cleanNonceCache now n0
              let nonceKey := clientId ++ ":" ++ nonceS
              if (cache nonceKey).isSome then (false, cache)
              else
                let payload := tsS ++ "." ++ nonceS ++ "." ++ clientId ++ ".GET." ++ pathAndQuery
                if sigS = hmac (env.WEATHER_PROXY_SIGNING_SECRET.getD "") payload then
                  (true, Function.update cache nonceKey (some (now + 120)))
                else (false, cache)

/-- One `RateLimiterDO.fetch` check on the durable counter (`none` when the
storage holds no counter): `Math.max(1, limitPerMinute || 1)` is the
effective limit; returns the `allowed` verdict and the stored counter. -/
def doCheck (limitPerMinute : ℚ) (now : Int) (st : Option RateEntry) :
    Bool × RateEntry :=
  let windowMs : Int := 60000
  let data := st.getD ⟨0, now⟩
  let next : RateEntry :=
    if now - data.windowStart ≥ windowMs then ⟨1, now⟩
    else ⟨data.count + 1, data.windowStart⟩
  let lim : ℚ := max 1 (if limitPerMinute = 0 then 1 else limitPerMinute)
  (decide ((next.count : ℚ) ≤ lim), next)

/-- Outcome of one call to the durable-object stub, as seen by the caller:
the call itself may throw, or return a response with an `ok` flag and the
parsed `allowed` field. -/
inductive DOResult where
  | throwErr : DOResult
  | resp (ok : Bool) (allowed : Bool) : DOResult
deriving Repr, DecidableEq

/-- `isRateLimitedGlobal(env, key, limitPerMinute)`: without the binding it
falls through to the in-memory limiter; with it, the stub call's outcome is
given by the oracle `doCall` (an exception from the stub propagates,
modelled as `Except.error`). -/
def isRateLimitedGlobal (env : Env) (doCall : String → DOResult)
    (key : String) (limitPerMinute : ℚ) (now : Int)
    (rb : String → Option RateEntry) :
    Except Unit (Bool × (String → Option RateEntry)) :=
  if env.RATE_LIMITER = false then
    Except.ok (isRateLimitedInMemory key limitPerMinute now rb)
  else
    match doCall key with
    | DOResult.throwErr => Except.error ()
    | DOResult.resp ok allowed =>
        if ok = false then Except.ok (true, rb)
        else Except.ok (!allowed, rb)

/-- `Math.max(10, Number(env.MAX_REQUESTS_PER_MINUTE || "120") || 120)`:
the effective per-minute limit computed by the orchestrator.  The inner
`|| 120` replaces a NaN or zero conversion result by 120. -/
def effectiveLimit (env : Env) : ℚ :=
  let n : ℚ :=
    match jsNumber (jsOrStr env.MAX_REQUESTS_PER_MINUTE "120") with
    | none => 120
    | some q => if q = 0 then 120 else q
  max 10 n

/-- The five allow-listed endpoint names. -/
def ALLOWED_ENDPOINTS : List String :=
  ["current.json", "forecast.json", "astronomy.json", "history.json", "future.json"]

/-- `URLSearchParams.set(k, v)` on an ordered pair list: replace the first
occurrence of `k` (dropping any later occurrences), or append. -/
def spSet : List (String × String) → String → String → List (String × String)
  | [], k, v => [(k, v)]
  | p :: rest, k, v =>
      if p.1 = k then (k, v) :: rest.filter (fun q => q.1 ≠ k)
      else p :: spSet rest k v

/-- The outbound URL construction: copy every inbound pair with
`searchParams.set`, then set the `key` credential parameter. -/
def buildUpstreamParams (inParams : List (String × String)) (secret : String) :
    List (String × String) :=
  spSet (inParams.foldl (fun acc p => spSet acc p.1 p.2) []) "key" secret

/-- An HTTP response as the worker produces it. -/
structure Resp where
  status : Nat
  body : String
  headers : List (String × String)
deriving Repr, DecidableEq

def unauthorized : Resp := ⟨401, "Unauthorized", []⟩
def badRequest (msg : String) : Resp := ⟨400, msg, []⟩
def tooManyRequests : Resp := ⟨429, "Too Many Requests", []⟩

/-- The single outbound GET the worker may issue: target endpoint and final
query pairs (method GET and header `Accept: application/json` are fixed in
the source). -/
structure OutboundReq where
  endpoint : String
  params : List (String × String)

/-- What the upstream provider answers: status, body, and its
`content-type` header (`none` when omitted). -/
structure UpstreamResp where
  status : Nat
  body : String
  contentType : Option String

/-- Result of one gateway invocation: the response, the final worker state,
and the outbound request if one was issued. -/
structure FetchResult where
  resp : Resp
  state : WorkerState
  outbound : Option OutboundReq

/-- The exported `fetch` handler (the gateway orchestrator).  `upstream`
and `doCall` are the two network collaborators; an uncaught exception from
the durable-object stub surfaces as `Except.error`. -/
def handleFetch (hmac : String → String → String)
    (upstream : OutboundReq → UpstreamResp)
    (doCall : String → DOResult)
    (req : Req) (env : Env) (nowMs : Int) (st : WorkerState) :
    Except Unit FetchResult :=
  let auth := req.authorization.getD ""
  if auth ≠ "Bearer " ++ env.WEATHER_PROXY_BEARER_TOKEN then
    Except.ok ⟨unauthorized, st, none⟩
  else if strStartsWith req.urlPathname "/weatherapi/" = false then
    Except.ok ⟨badRequest "Invalid path", st, none⟩
  else
    let endpoint := strDrop req.urlPathname ("/weatherapi/".length)
    if endpoint ∉ ALLOWED_ENDPOINTS then
      Except.ok ⟨badRequest "Endpoint not allowed", st, none⟩
    else if validateQuery endpoint req.searchParams = false then
      Except.ok ⟨badRequest "Query policy violation", st, none⟩
    else
      let sigStep :=
        if toBool env.REQUIRE_SIGNED_REQUESTS then
          verifySignature hmac req env (req.urlPathname ++ req.urlSearch) nowMs st.nonceSeen
        else (true, st.nonceSeen)
      let st1 : WorkerState := ⟨st.rateBucket, sigStep.2⟩
      if sigStep.1 = false then Except.ok ⟨unauthorized, st1, none⟩
      else
        let clientId := jsOrStr req.hClientId "default"
        let maxPerMinute := effectiveLimit env
        match isRateLimitedGlobal env doCall ("ip:" ++ clientIp req) maxPerMinute nowMs st1.rateBucket with
        | Except.error e => Except.error e
        | Except.ok (lim1, rb1) =>
            if lim1 then Except.ok ⟨tooManyRequests, ⟨rb1, st1.nonceSeen⟩, none⟩
            else
              match isRateLimitedGlobal env doCall ("client:" ++ clientId)
                  (max 10 (⌊maxPerMinute / 2⌋ : ℚ)) nowMs rb1 with
              | Except.error e => Except.error e
              | Except.ok (lim2, rb2) =>
                  if lim2 then Except.ok ⟨tooManyRequests, ⟨rb2, st1.nonceSeen⟩, none⟩
                  else
                    let ob : OutboundReq :=
                      ⟨endpoint, buildUpstreamParams req.searchParams env.WEATHER_API_KEY⟩
                    let ur := upstream ob
                    Except.ok ⟨⟨ur.status, ur.body,
                      [("Content-Type", jsOrStr ur.contentType "application/json"),
                       ("Cache-Control", "no-store")]⟩, ⟨rb2, st1.nonceSeen⟩, some ob⟩

/-- Status of a gateway outcome, `none` when the invocation threw. -/
def resultStatus : Except Unit FetchResult → Option Nat
  | Except.ok r => some r.resp.status
  | Except.error _ => none

/-- Outbound request of a gateway outcome, when one was issued. -/
def resultOutbound : Except Unit FetchResult → Option OutboundReq
  | Except.ok r => r.outbound
  | Except.error _ => none

/-! ### Concrete fixtures for witnesses and counterexamples -/

/-- A constant HMAC oracle. -/
def hmacConst : String → String → String := fun _ _ => "SIG"

/-- An HMAC oracle tagging secret and payload, injective in the payload. -/
def hmacTag : String → String → String := fun s p => s ++ "|" ++ p

/-- An upstream oracle that always answers 200 with an empty JSON body and
no content-type header. -/
def upstream200 : OutboundReq → UpstreamResp := fun _ => ⟨200, "{}", none⟩

/-- A durable-object stub whose calls always throw. -/
def doThrow : String → DOResult := fun _ => DOResult.throwErr

/-- Empty worker state: no rate entries, no nonces. -/
def emptyState : WorkerState := ⟨fun _ => none, fun _ => none⟩

/-- A baseline environment: bearer token `TOK`, signing not required,
in-memory rate limiting, default limit. -/
def baseEnv : Env := ⟨"APIKEY", "TOK", none, none, none, none, false⟩

/-- A baseline valid request to `current.json`. -/
def baseReq : Req := ⟨some "Bearer TOK", "/weatherapi/current.json", "?q=Denver",
  [("q", "Denver")], none, none, none, none, some "1.2.3.4"⟩

/-- A rate bucket holding an exhausted counter for the baseline caller IP
(window started at 0 ms, 200 requests consumed). -/
def bucketFullIp : String → Option RateEntry :=
  fun k => if k = "ip:1.2.3.4" then some ⟨200, 0⟩ else none

/-! ### Claims -/

/-- C5: every inbound request whose Authorization header does not exactly
equal `Bearer <configured-token>` (including a missing header) gets a 401,
with the worker state untouched and no outbound call, before any other
check runs — for every path, query, signature header set and oracle. -/
theorem c5_bearer_check_first (hmac : String → String → String)
    (upstream : OutboundReq → UpstreamResp) (doCall : String → DOResult)
    (req : Req) (env : Env) (nowMs : Int) (st : WorkerState)
    (h : req.authorization.getD "" ≠ "Bearer " ++ env.WEATHER_PROXY_BEARER_TOKEN) :
    handleFetch hmac upstream doCall req env nowMs st =
      Except.ok ⟨unauthorized, st, none⟩ ∧ unauthorized.status = 401 := by
  refine ⟨?_, rfl⟩
  simp only [handleFetch]
  rw [if_pos h]

/-- Witness for C5: a request with no Authorization header is answered 401
with the state unchanged and no outbound call. -/
theorem c5_bearer_check_first_witness :
    handleFetch hmacConst upstream200 doThrow
        { baseReq with authorization := none } baseEnv 0 emptyState =
      Except.ok ⟨unauthorized, emptyState, none⟩ ∧ unauthorized.status = 401 :=
  c5_bearer_check_first hmacConst upstream200 doThrow
    { baseReq with authorization := none } baseEnv 0 emptyState (by decide)

/-- C6: an authenticated request whose path lacks the `/weatherapi/`
path start or whose endpoint is not allow-listed gets a 400, with the
worker state (rate bucket and replay cache) unchanged and no outbound
call, hence no signature verification and no rate-limit consumption. -/
theorem c6_bad_path_or_endpoint (hmac : String → String → String)
    (upstream : OutboundReq → UpstreamResp) (doCall : String → DOResult)
    (req : Req) (env : Env) (nowMs : Int) (st : WorkerState)
    (hauth : req.authorization.getD "" = "Bearer " ++ env.WEATHER_PROXY_BEARER_TOKEN)
    (hbad : strStartsWith req.urlPathname "/weatherapi/" = false ∨
      strDrop req.urlPathname ("/weatherapi/".length) ∉ ALLOWED_ENDPOINTS) :
    ∃ msg, handleFetch hmac upstream doCall req env nowMs st =
      Except.ok ⟨badRequest msg, st, none⟩ ∧ (badRequest msg).status = 400 := by
  by_cases hp : strStartsWith req.urlPathname "/weatherapi/"
  · rcases hbad with h | h
    · rw [hp] at h; cases h
    · refine ⟨"Endpoint not allowed", ?_, rfl⟩
      simp only [handleFetch]
      rw [if_neg (by simp [hauth]), if_neg (by simp [hp]), if_pos h]
  · refine ⟨"Invalid path", ?_, rfl⟩
    simp only [handleFetch]
    rw [if_neg (by simp [hauth]), if_pos (by simpa using hp)]

/-- Witness for C6: an authenticated request to `/weatherapi/evil.json`
gets a 400 with state unchanged and no outbound call. -/
theorem c6_bad_path_or_endpoint_witness :
    ∃ msg, handleFetch hmacConst upstream200 doThrow
        { baseReq with urlPathname := "/weatherapi/evil.json" } baseEnv 0 emptyState =
      Except.ok ⟨badRequest msg, emptyState, none⟩ ∧ (badRequest msg).status = 400 :=
  c6_bad_path_or_endpoint hmacConst upstream200 doThrow
    { baseReq with urlPathname := "/weatherapi/evil.json" } baseEnv 0 emptyState
    (by decide) (Or.inr (by decide))

/-- C4 counterexample: with the durable-object binding present, a valid
request whose coordinated call throws makes the whole invocation propagate
the exception (`Except.error`), so the gateway does not respond 429 — the
"coordinated call fails" half of the claim is not fail-closed. -/
theorem c4_counterexample :
    handleFetch hmacConst upstream200 doThrow baseReq
        { baseEnv with RATE_LIMITER := true } 0 emptyState = Except.error () ∧
    resultStatus (handleFetch hmacConst upstream200 doThrow baseReq
        { baseEnv with RATE_LIMITER := true } 0 emptyState) ≠ some 429 := by
  have h : handleFetch hmacConst upstream200 doThrow baseReq
      { baseEnv with RATE_LIMITER := true } 0 emptyState = Except.error () := rfl
  exact ⟨h, by rw [h]; simp [resultStatus]⟩

/-- C4 amended: for every request routed to the coordinated backend, a
coordinated call that returns a non-2xx status, or a 2xx reply with
`allowed: false`, makes the gateway respond 429 without forwarding the
request upstream (a coordinated call that itself throws instead propagates
the exception, and the request is still not forwarded). -/
theorem c4_fail_closed (hmac : String → String → String)
    (upstream : OutboundReq → UpstreamResp) (doCall : String → DOResult)
    (req : Req) (env : Env) (nowMs : Int) (st : WorkerState)
    (hRL : env.RATE_LIMITER = true)
    (hauth : req.authorization.getD "" = "Bearer " ++ env.WEATHER_PROXY_BEARER_TOKEN)
    (hp : strStartsWith req.urlPathname "/weatherapi/" = true)
    (hend : strDrop req.urlPathname ("/weatherapi/".length) ∈ ALLOWED_ENDPOINTS)
    (hq : validateQuery (strDrop req.urlPathname ("/weatherapi/".length)) req.searchParams = true)
    (hsig : toBool env.REQUIRE_SIGNED_REQUESTS = false) :
    (∀ ok1 al1, doCall ("ip:" ++ clientIp req) = DOResult.resp ok1 al1 →
      (ok1 = false ∨ al1 = false) →
      handleFetch hmac upstream doCall req env nowMs st =
        Except.ok ⟨tooManyRequests, st, none⟩ ∧ tooManyRequests.status = 429) ∧
    (∀ ok2 al2, doCall ("ip:" ++ clientIp req) = DOResult.resp true true →
      doCall ("client:" ++ jsOrStr req.hClientId "default") = DOResult.resp ok2 al2 →
      (ok2 = false ∨ al2 = false) →
      handleFetch hmac upstream doCall req env nowMs st =
        Except.ok ⟨tooManyRequests, st, none⟩ ∧ tooManyRequests.status = 429) := by
  constructor
  · intro ok1 al1 hdo hfail
    refine ⟨?_, rfl⟩
    simp only [handleFetch, isRateLimitedGlobal]
    rw [if_neg (by simp [hauth]), if_neg (by simp [hp]), if_neg (by simp [hend]),
      if_neg (by simp [hq]), hsig]
    simp only [Bool.false_eq_true, if_false, hRL, hdo]
    rcases hfail with h | h <;> subst h <;> simp
  · intro ok2 al2 hdo1 hdo2 hfail
    refine ⟨?_, rfl⟩
    simp only [handleFetch, isRateLimitedGlobal]
    rw [if_neg (by simp [hauth]), if_neg (by simp [hp]), if_neg (by simp [hend]),
      if_neg (by simp [hq]), hsig]
    simp only [Bool.false_eq_true, if_false, hRL, hdo1, hdo2]
    rcases hfail with h | h <;> subst h <;> simp

/-- Witness for C4 amended: a coordinated backend answering HTTP 500 on the
IP-keyed check makes the gateway reject the baseline request with 429 and
issue no outbound call. -/
theorem c4_fail_closed_witness :
    handleFetch hmacConst upstream200 (fun _ => DOResult.resp false false) baseReq
        { baseEnv with RATE_LIMITER := true } 0 emptyState =
      Except.ok ⟨tooManyRequests, emptyState, none⟩ ∧ tooManyRequests.status = 429 :=
  (c4_fail_closed hmacConst upstream200 (fun _ => DOResult.resp false false) baseReq
    { baseEnv with RATE_LIMITER := true } 0 emptyState rfl (by decide) (by decide)
    (by decide) (by decide) (by decide)).1 false false rfl (Or.inl rfl)

/-- No IP-keyed rate key collides with a client-keyed one. -/
theorem ipKey_ne_clientKey (a b : String) : ("ip:" ++ a) ≠ ("client:" ++ b) := by
  intro h
  have hd := congrArg String.data h
  simp [String.data_append] at hd

/-- The outbound request the gateway issues for a given inbound request. -/
def fwdReq (req : Req) (env : Env) : OutboundReq :=
  ⟨strDrop req.urlPathname ("/weatherapi/".length),
   buildUpstreamParams req.searchParams env.WEATHER_API_KEY⟩

/-- A request that passes every check, with signing disabled, the
in-memory backend, and both rate keys fresh, is forwarded: the response
carries the upstream status and body, the content-type default and the
no-store header, and both rate counters start a new window at 1. -/
theorem handleFetch_forward (hmac : String → String → String)
    (upstream : OutboundReq → UpstreamResp) (doCall : String → DOResult)
    (req : Req) (env : Env) (nowMs : Int) (st : WorkerState)
    (hauth : req.authorization.getD "" = "Bearer " ++ env.WEATHER_PROXY_BEARER_TOKEN)
    (hp : strStartsWith req.urlPathname "/weatherapi/" = true)
    (hend : strDrop req.urlPathname ("/weatherapi/".length) ∈ ALLOWED_ENDPOINTS)
    (hq : validateQuery (strDrop req.urlPathname ("/weatherapi/".length)) req.searchParams = true)
    (hRL : env.RATE_LIMITER = false)
    (hsig : toBool env.REQUIRE_SIGNED_REQUESTS = false)
    (hip : st.rateBucket ("ip:" ++ clientIp req) = none)
    (hcl : st.rateBucket ("client:" ++ jsOrStr req.hClientId "default") = none) :
    handleFetch hmac upstream doCall req env nowMs st =
      Except.ok ⟨⟨(upstream (fwdReq req env)).status, (upstream (fwdReq req env)).body,
          [("Content-Type", jsOrStr (upstream (fwdReq req env)).contentType "application/json"),
           ("Cache-Control", "no-store")]⟩,
        ⟨Function.update
            (Function.update st.rateBucket ("ip:" ++ clientIp req) (some ⟨1, nowMs⟩))
            ("client:" ++ jsOrStr req.hClientId "default") (some ⟨1, nowMs⟩),
          st.nonceSeen⟩,
        some (fwdReq req env)⟩ := by
  have hne := ipKey_ne_clientKey (clientIp req) (jsOrStr req.hClientId "default")
  simp only [handleFetch, isRateLimitedGlobal, isRateLimitedInMemory, fwdReq]
  rw [if_neg (by simp [hauth]), if_neg (by simp [hp]), if_neg (by simp [hend]),
    if_neg (by simp [hq]), hsig]
  simp [hRL, hip, Function.update_noteq (Ne.symm hne), hcl]

/-- A valid bearer request to forecast.json with a fractional `days`. -/
def reqDays25 : Req := ⟨some "Bearer TOK", "/weatherapi/forecast.json", "?q=Denver&days=2.5",
  [("q", "Denver"), ("days", "2.5")], none, none, none, none, none⟩

/-- The conversion of the string "2.5". -/
theorem jsNumber_two_point_five : jsNumber "2.5" = some (5 / 2 : ℚ) := by
  have h : jsNumber "2.5" =
      some ((decVal ['2'] : ℚ) + (decVal ['5'] : ℚ) / (10 : ℚ) ^ (1 : ℕ)) := rfl
  rw [h, Option.some_inj, show decVal ['2'] = 2 from rfl, show decVal ['5'] = 5 from rfl]
  norm_num

/-- C7 counterexample: `days=2.5` is not an integer, yet `validateQuery`
accepts it and the gateway forwards the request and answers 200, not the
400 the claim requires for a non-integer `days` — the source checks only
finiteness and the [1, 10] range, not integrality. -/
theorem c7_counterexample :
    jsNumber "2.5" = some (5 / 2 : ℚ) ∧ ((5 / 2 : ℚ)).den ≠ 1 ∧
    validateQuery "forecast.json" [("q", "Denver"), ("days", "2.5")] = true ∧
    resultStatus (handleFetch hmacConst upstream200 doThrow reqDays25 baseEnv 0 emptyState) =
      some 200 := by
  have hval : validateQuery "forecast.json" [("q", "Denver"), ("days", "2.5")] = true := by
    unfold validateQuery
    rw [show jsOrStr (paramsGet [("q", "Denver"), ("days", "2.5")] "days") "1" = "2.5" from rfl,
      jsNumber_two_point_five, if_neg (by decide), if_pos rfl]
    norm_num
  refine ⟨jsNumber_two_point_five, by norm_num, hval, ?_⟩
  rw [handleFetch_forward hmacConst upstream200 doThrow reqDays25 baseEnv 0 emptyState
    (by decide) (by decide) (by decide) hval rfl (by decide) rfl rfl]
  rfl

/-- C7 amended: for an authenticated request to an allow-listed endpoint,
if the `q` parameter exceeds 120 characters, or the endpoint is
forecast.json and the `days` parameter does not convert to a finite number
in [1, 10] (an absent or empty `days` defaulting to "1"), the gateway
returns 400 with the worker state unchanged and no outbound call — hence
before any signature verification, rate-limit consumption or upstream
call; in particular `days=15` with a valid bearer yields 400. -/
theorem c7_query_policy (hmac : String → String → String)
    (upstream : OutboundReq → UpstreamResp) (doCall : String → DOResult)
    (req : Req) (env : Env) (nowMs : Int) (st : WorkerState)
    (hauth : req.authorization.getD "" = "Bearer " ++ env.WEATHER_PROXY_BEARER_TOKEN)
    (hp : strStartsWith req.urlPathname "/weatherapi/" = true)
    (hend : strDrop req.urlPathname ("/weatherapi/".length) ∈ ALLOWED_ENDPOINTS)
    (hviol : 120 < ((paramsGet req.searchParams "q").getD "").length ∨
      (strDrop req.urlPathname ("/weatherapi/".length) = "forecast.json" ∧
        ∀ d : ℚ, jsNumber (jsOrStr (paramsGet req.searchParams "days") "1") = some d →
          d < 1 ∨ 10 < d)) :
    handleFetch hmac upstream doCall req env nowMs st =
      Except.ok ⟨badRequest "Query policy violation", st, none⟩ ∧
    (badRequest "Query policy violation").status = 400 := by
  have hq : validateQuery (strDrop req.urlPathname ("/weatherapi/".length))
      req.searchParams = false := by
    unfold validateQuery
    rcases hviol with h | ⟨he, hd⟩
    · simp [h]
    · by_cases hql : 120 < ((paramsGet req.searchParams "q").getD "").length
      · simp [hql]
      · rw [he]
        cases hjn : jsNumber (jsOrStr (paramsGet req.searchParams "days") "1") with
        | none => simp [hql, hjn]
        | some d => simp [hql, hjn, hd d hjn]
  refine ⟨?_, rfl⟩
  simp only [handleFetch]
  rw [if_neg (by simp [hauth]), if_neg (by simp [hp]), if_neg (by simp [hend]),
    if_pos (by simp [hq])]

/-- Witness for C7 amended: `/weatherapi/forecast.json?q=Denver&days=15`
with a valid bearer is answered 400 with state unchanged and no outbound
call. -/
theorem c7_query_policy_witness :
    handleFetch hmacConst upstream200 doThrow
        ⟨some "Bearer TOK", "/weatherapi/forecast.json", "?q=Denver&days=15",
          [("q", "Denver"), ("days", "15")], none, none, none, none, none⟩
        baseEnv 0 emptyState =
      Except.ok ⟨badRequest "Query policy violation", emptyState, none⟩ ∧
    (badRequest "Query policy violation").status = 400 :=
  c7_query_policy hmacConst upstream200 doThrow
    ⟨some "Bearer TOK", "/weatherapi/forecast.json", "?q=Denver&days=15",
      [("q", "Denver"), ("days", "15")], none, none, none, none, none⟩
    baseEnv 0 emptyState (by decide) (by decide) (by decide)
    (Or.inr ⟨by decide, by
      intro d hd
      have h15 : jsNumber (jsOrStr
          (paramsGet [("q", "Denver"), ("days", "15")] "days") "1") = some (15 : ℚ) := by decide
      rw [h15, Option.some_inj] at hd
      right
      rw [← hd]
      norm_num⟩)

/-- A request that reaches the rate-limit stage (signing disabled,
in-memory backend) whose IP-keyed check reports limited is answered 429
with no outbound call. -/
theorem handleFetch_ip_limited (hmac : String → String → String)
    (upstream : OutboundReq → UpstreamResp) (doCall : String → DOResult)
    (req : Req) (env : Env) (nowMs : Int) (st : WorkerState)
    (hauth : req.authorization.getD "" = "Bearer " ++ env.WEATHER_PROXY_BEARER_TOKEN)
    (hp : strStartsWith req.urlPathname "/weatherapi/" = true)
    (hend : strDrop req.urlPathname ("/weatherapi/".length) ∈ ALLOWED_ENDPOINTS)
    (hq : validateQuery (strDrop req.urlPathname ("/weatherapi/".length)) req.searchParams = true)
    (hRL : env.RATE_LIMITER = false)
    (hsig : toBool env.REQUIRE_SIGNED_REQUESTS = false)
    (rb1 : String → Option RateEntry)
    (h1 : isRateLimitedInMemory ("ip:" ++ clientIp req) (effectiveLimit env) nowMs
        st.rateBucket = (true, rb1)) :
    handleFetch hmac upstream doCall req env nowMs st =
      Except.ok ⟨tooManyRequests, ⟨rb1, st.nonceSeen⟩, none⟩ := by
  simp only [handleFetch, isRateLimitedGlobal]
  rw [if_neg (by simp [hauth]), if_neg (by simp [hp]), if_neg (by simp [hend]),
    if_neg (by simp [hq]), hsig]
  simp [hRL, h1]

/-- A request that reaches the rate-limit stage, passes the IP-keyed check
and fails the client-keyed check is answered 429 with no outbound call. -/
theorem handleFetch_client_limited (hmac : String → String → String)
    (upstream : OutboundReq → UpstreamResp) (doCall : String → DOResult)
    (req : Req) (env : Env) (nowMs : Int) (st : WorkerState)
    (hauth : req.authorization.getD "" = "Bearer " ++ env.WEATHER_PROXY_BEARER_TOKEN)
    (hp : strStartsWith req.urlPathname "/weatherapi/" = true)
    (hend : strDrop req.urlPathname ("/weatherapi/".length) ∈ ALLOWED_ENDPOINTS)
    (hq : validateQuery (strDrop req.urlPathname ("/weatherapi/".length)) req.searchParams = true)
    (hRL : env.RATE_LIMITER = false)
    (hsig : toBool env.REQUIRE_SIGNED_REQUESTS = false)
    (rb1 rb2 : String → Option RateEntry)
    (h1 : isRateLimitedInMemory ("ip:" ++ clientIp req) (effectiveLimit env) nowMs
        st.rateBucket = (false, rb1))
    (h2 : isRateLimitedInMemory ("client:" ++ jsOrStr req.hClientId "default")
        (max 10 (⌊effectiveLimit env / 2⌋ : ℚ)) nowMs rb1 = (true, rb2)) :
    handleFetch hmac upstream doCall req env nowMs st =
      Except.ok ⟨tooManyRequests, ⟨rb2, st.nonceSeen⟩, none⟩ := by
  simp only [handleFetch, isRateLimitedGlobal]
  rw [if_neg (by simp [hauth]), if_neg (by simp [hp]), if_neg (by simp [hend]),
    if_neg (by simp [hq]), hsig]
  simp [hRL, h1, h2]

/-- Unfolding of `effectiveLimit`. -/
theorem effectiveLimit_eq (env : Env) :
    effectiveLimit env = max 10
      (match jsNumber (jsOrStr env.MAX_REQUESTS_PER_MINUTE "120") with
        | none => (120 : ℚ)
        | some q => if q = 0 then 120 else q) := rfl

/-- The conversion of the string "120". -/
theorem jsNumber_120 : jsNumber "120" = some (120 : ℚ) := by
  have h : jsNumber "120" = some ((decVal ['1', '2', '0'] : ℕ) : ℚ) := rfl
  rw [h, show (decVal ['1', '2', '0'] : ℕ) = 120 from rfl]
  norm_num

/-- C9 counterexample: with max-requests-per-minute configured to "5" —
a value below the configured default of 120 — the effective limit is 10
(the clamp floor), not the literal default 120 the claim requires. -/
theorem c9_counterexample :
    effectiveLimit ⟨"APIKEY", "TOK", none, none, none, some "5", false⟩ = 10 ∧
    (10 : ℚ) ≠ 120 := by
  constructor
  · rw [effectiveLimit_eq]
    rw [show jsOrStr (some "5") "120" = "5" from rfl,
      show jsNumber "5" = some ((decVal ['5'] : ℕ) : ℚ) from rfl,
      show (decVal ['5'] : ℕ) = 5 from rfl]
    norm_num
  · norm_num

/-- C9 amended: the effective per-minute limit is 120 when
max-requests-per-minute is unset, not a number, or converts to 0, and is
otherwise `max 10 value` (so values below 10 are clamped up to 10, not
replaced by 120); the orchestrator applies the in-memory limiter first on
the caller-IP key at the full limit, then on the client key at
`max 10 ⌊limit / 2⌋`, and responds 429 (without forwarding) if either
check reports limited. -/
theorem c9_rate_limit_config (hmac : String → String → String)
    (upstream : OutboundReq → UpstreamResp) (doCall : String → DOResult)
    (req : Req) (env : Env) (nowMs : Int) (st : WorkerState)
    (hauth : req.authorization.getD "" = "Bearer " ++ env.WEATHER_PROXY_BEARER_TOKEN)
    (hp : strStartsWith req.urlPathname "/weatherapi/" = true)
    (hend : strDrop req.urlPathname ("/weatherapi/".length) ∈ ALLOWED_ENDPOINTS)
    (hq : validateQuery (strDrop req.urlPathname ("/weatherapi/".length)) req.searchParams = true)
    (hRL : env.RATE_LIMITER = false)
    (hsig : toBool env.REQUIRE_SIGNED_REQUESTS = false) :
    (env.MAX_REQUESTS_PER_MINUTE = none → effectiveLimit env = 120) ∧
    (jsNumber (jsOrStr env.MAX_REQUESTS_PER_MINUTE "120") = none → effectiveLimit env = 120) ∧
    (jsNumber (jsOrStr env.MAX_REQUESTS_PER_MINUTE "120") = some 0 → effectiveLimit env = 120) ∧
    (∀ q : ℚ, jsNumber (jsOrStr env.MAX_REQUESTS_PER_MINUTE "120") = some q → q ≠ 0 →
      effectiveLimit env = max 10 q) ∧
    (∀ lim1 rb1, isRateLimitedInMemory ("ip:" ++ clientIp req) (effectiveLimit env) nowMs
        st.rateBucket = (lim1, rb1) →
      (lim1 = true →
        handleFetch hmac upstream doCall req env nowMs st =
          Except.ok ⟨tooManyRequests, ⟨rb1, st.nonceSeen⟩, none⟩) ∧
      (lim1 = false → ∀ lim2 rb2,
        isRateLimitedInMemory ("client:" ++ jsOrStr req.hClientId "default")
          (max 10 (⌊effectiveLimit env / 2⌋ : ℚ)) nowMs rb1 = (lim2, rb2) →
        lim2 = true →
          handleFetch hmac upstream doCall req env nowMs st =
            Except.ok ⟨tooManyRequests, ⟨rb2, st.nonceSeen⟩, none⟩)) := by
  refine ⟨?_, ?_, ?_, ?_, ?_⟩
  · intro h
    rw [effectiveLimit_eq, h, show jsOrStr none "120" = "120" from rfl, jsNumber_120]
    norm_num
  · intro h
    rw [effectiveLimit_eq, h]
    norm_num
  · intro h
    rw [effectiveLimit_eq, h]
    norm_num
  · intro q hq0 hqne
    rw [effectiveLimit_eq, hq0]
    simp [hqne]
  · intro lim1 rb1 h1
    constructor
    · intro hl1
      subst hl1
      exact handleFetch_ip_limited hmac upstream doCall req env nowMs st
        hauth hp hend hq hRL hsig rb1 h1
    · intro hl1 lim2 rb2 h2 hl2
      subst hl1; subst hl2
      exact handleFetch_client_limited hmac upstream doCall req env nowMs st
        hauth hp hend hq hRL hsig rb1 rb2 h1 h2

/-- Witness for C9 amended: with the default configuration the effective
limit is 120, and a caller IP whose window already holds 200 requests is
rejected 429 on the IP-keyed check. -/
theorem c9_rate_limit_config_witness :
    effectiveLimit baseEnv = 120 ∧
    handleFetch hmacConst upstream200 doThrow baseReq baseEnv 5 ⟨bucketFullIp, fun _ => none⟩ =
      Except.ok ⟨tooManyRequests,
        ⟨(isRateLimitedInMemory ("ip:" ++ clientIp baseReq) (effectiveLimit baseEnv) 5
            bucketFullIp).2, fun _ => none⟩, none⟩ := by
  have h := c9_rate_limit_config hmacConst upstream200 doThrow baseReq baseEnv 5
    ⟨bucketFullIp, fun _ => none⟩ (by decide) (by decide) (by decide) (by decide) rfl (by decide)
  have hL : effectiveLimit baseEnv = 120 := h.1 rfl
  refine ⟨hL, ?_⟩
  refine (h.2.2.2.2 _ _ rfl).1 ?_
  rw [hL]
  decide

/-- `n` successive in-memory checks on the same key and limit, all at time
`now`, starting from bucket `rb`. -/
def simCalls (key : String) (lim : ℚ) (now : Int) (rb : String → Option RateEntry) :
    Nat → Bool × (String → Option RateEntry)
  | 0 => (false, rb)
  | n + 1 => isRateLimitedInMemory key lim now (simCalls key lim now rb n).2

/-- Lookup of a key the in-memory check did not touch. -/
theorem isRateLimitedInMemory_apply_ne (key other : String) (lim : ℚ) (now : Int)
    (rb : String → Option RateEntry) (h : other ≠ key) :
    ((isRateLimitedInMemory key lim now rb).2) other = rb other := by
  unfold isRateLimitedInMemory
  cases hk : rb key with
  | none => simp [Function.update_noteq h]
  | some entry =>
      by_cases hw : now - entry.windowStart ≥ 60000
      · simp [hw, Function.update_noteq h]
      · simp [hw, Function.update_noteq h]

/-- C3: for a fixed key, the in-memory counter resets to count = 1 (and
the request is allowed) whenever `now − windowStart ≥ 60000` ms, otherwise
it is incremented and compared against the limit; with limit 10, the 10th
request of a window is allowed, the 11th is limited, the first request of
a new window (60 s after the window started) is allowed again, and the
gateway answers a limited IP-keyed check with 429. -/
theorem c3_window_semantics :
    (∀ key (lim : ℚ) (now : Int) rb entry, rb key = some entry →
      now - entry.windowStart ≥ 60000 →
      isRateLimitedInMemory key lim now rb = (false, Function.update rb key (some ⟨1, now⟩))) ∧
    (∀ key (lim : ℚ) (now : Int) rb entry, rb key = some entry →
      now - entry.windowStart < 60000 →
      isRateLimitedInMemory key lim now rb =
        (decide (((entry.count + 1 : ℕ) : ℚ) > lim),
         Function.update rb key (some ⟨entry.count + 1, entry.windowStart⟩))) ∧
    (simCalls "k" 10 0 (fun _ => none) 10).1 = false ∧
    (simCalls "k" 10 0 (fun _ => none) 11).1 = true ∧
    (isRateLimitedInMemory "k" 10 60000 (simCalls "k" 10 0 (fun _ => none) 11).2).1 = false ∧
    (∀ hmac upstream doCall req env (nowMs : Int) st rb1,
      req.authorization.getD "" = "Bearer " ++ env.WEATHER_PROXY_BEARER_TOKEN →
      strStartsWith req.urlPathname "/weatherapi/" = true →
      strDrop req.urlPathname ("/weatherapi/".length) ∈ ALLOWED_ENDPOINTS →
      validateQuery (strDrop req.urlPathname ("/weatherapi/".length)) req.searchParams = true →
      env.RATE_LIMITER = false →
      toBool env.REQUIRE_SIGNED_REQUESTS = false →
      isRateLimitedInMemory ("ip:" ++ clientIp req) (effectiveLimit env) nowMs
          st.rateBucket = (true, rb1) →
      handleFetch hmac upstream doCall req env nowMs st =
        Except.ok ⟨tooManyRequests, ⟨rb1, st.nonceSeen⟩, none⟩ ∧
      tooManyRequests.status = 429) := by
  refine ⟨?_, ?_, by decide, by decide, by decide, ?_⟩
  · intro key lim now rb entry he hw
    unfold isRateLimitedInMemory
    rw [he]
    simp [hw]
  · intro key lim now rb entry he hw
    unfold isRateLimitedInMemory
    rw [he]
    simp [not_le.mpr hw]
  · intro hmac upstream doCall req env nowMs st rb1 hauth hp hend hq hRL hsig h1
    exact ⟨handleFetch_ip_limited hmac upstream doCall req env nowMs st
      hauth hp hend hq hRL hsig rb1 h1, rfl⟩

/-- Witness for C3: the reset branch and the increments branch evaluated
at a concrete bucket, and the gateway answering 429 when the baseline IP
key is exhausted. -/
theorem c3_window_semantics_witness :
    isRateLimitedInMemory "k" 10 60001 (fun k => if k = "k" then some ⟨7, 1⟩ else none) =
      (false, Function.update (fun k => if k = "k" then some ⟨7, 1⟩ else none) "k"
        (some ⟨1, 60001⟩)) ∧
    isRateLimitedInMemory "k" 10 30000 (fun k => if k = "k" then some ⟨7, 1⟩ else none) =
      (decide (((7 + 1 : ℕ) : ℚ) > 10),
       Function.update (fun k => if k = "k" then some ⟨7, 1⟩ else none) "k" (some ⟨8, 1⟩)) ∧
    handleFetch hmacConst upstream200 doThrow baseReq baseEnv 5 ⟨bucketFullIp, fun _ => none⟩ =
      Except.ok ⟨tooManyRequests,
        ⟨(isRateLimitedInMemory ("ip:" ++ clientIp baseReq) (effectiveLimit baseEnv) 5
            bucketFullIp).2, fun _ => none⟩, none⟩ := by
  refine ⟨c3_window_semantics.1 "k" 10 60001 _ ⟨7, 1⟩ rfl (by decide),
    c3_window_semantics.2.1 "k" 10 30000 _ ⟨7, 1⟩ rfl (by decide), ?_⟩
  refine (c3_window_semantics.2.2.2.2.2 hmacConst upstream200 doThrow baseReq baseEnv 5
    ⟨bucketFullIp, fun _ => none⟩ _ (by decide) (by decide) (by decide) (by decide) rfl
    (by decide) ?_).1
  have hL : effectiveLimit baseEnv = 120 := by
    rw [effectiveLimit_eq, show jsOrStr baseEnv.MAX_REQUESTS_PER_MINUTE "120" = "120" from rfl,
      jsNumber_120]
    norm_num
  rw [hL]
  exact Prod.ext (by decide) rfl

/-- Lookup of the checked key after an in-memory check inside an unexpired
window: the count has been incremented, whatever the verdict was. -/
theorem isRateLimitedInMemory_apply_same (key : String) (lim : ℚ) (now : Int)
    (rb : String → Option RateEntry) (entry : RateEntry)
    (he : rb key = some entry) (hw : now - entry.windowStart < 60000) :
    ((isRateLimitedInMemory key lim now rb).2) key =
      some ⟨entry.count + 1, entry.windowStart⟩ := by
  unfold isRateLimitedInMemory
  rw [he]
  simp [not_le.mpr hw]

/-- A bucket with a fresh-ish IP counter (3 used) and an exhausted client
counter (100 used) for the baseline request, both windows started at 0. -/
def rbBoth : String → Option RateEntry :=
  fun k => if k = "ip:1.2.3.4" then some ⟨3, 0⟩
    else if k = "client:default" then some ⟨100, 0⟩ else none

/-- C10: within an unexpired window every rate-limit check increments the
key's counter by exactly one even when the verdict is limited (both for
the in-memory bucket and the durable counter), and because the IP-keyed
check runs first, a request denied on the client key has still consumed
one unit of the IP key's budget. -/
theorem c10_denied_consumes :
    (∀ key (lim : ℚ) (now : Int) rb entry, rb key = some entry →
      now - entry.windowStart < 60000 →
      ((isRateLimitedInMemory key lim now rb).2) key =
        some ⟨entry.count + 1, entry.windowStart⟩) ∧
    (∀ (lim : ℚ) (now : Int) data, now - data.windowStart < 60000 →
      (doCheck lim now (some data)).2 = ⟨data.count + 1, data.windowStart⟩) ∧
    (∀ hmac upstream doCall req env (nowMs : Int) st rb1 rb2,
      req.authorization.getD "" = "Bearer " ++ env.WEATHER_PROXY_BEARER_TOKEN →
      strStartsWith req.urlPathname "/weatherapi/" = true →
      strDrop req.urlPathname ("/weatherapi/".length) ∈ ALLOWED_ENDPOINTS →
      validateQuery (strDrop req.urlPathname ("/weatherapi/".length)) req.searchParams = true →
      env.RATE_LIMITER = false →
      toBool env.REQUIRE_SIGNED_REQUESTS = false →
      isRateLimitedInMemory ("ip:" ++ clientIp req) (effectiveLimit env) nowMs
          st.rateBucket = (false, rb1) →
      isRateLimitedInMemory ("client:" ++ jsOrStr req.hClientId "default")
          (max 10 (⌊effectiveLimit env / 2⌋ : ℚ)) nowMs rb1 = (true, rb2) →
      handleFetch hmac upstream doCall req env nowMs st =
        Except.ok ⟨tooManyRequests, ⟨rb2, st.nonceSeen⟩, none⟩ ∧
      rb2 ("ip:" ++ clientIp req) = rb1 ("ip:" ++ clientIp req) ∧
      (∀ entry, st.rateBucket ("ip:" ++ clientIp req) = some entry →
        nowMs - entry.windowStart < 60000 →
        rb1 ("ip:" ++ clientIp req) = some ⟨entry.count + 1, entry.windowStart⟩)) := by
  refine ⟨isRateLimitedInMemory_apply_same, ?_, ?_⟩
  · intro lim now data hw
    unfold doCheck
    simp [not_le.mpr hw]
  · intro hmac upstream doCall req env nowMs st rb1 rb2 hauth hp hend hq hRL hsig h1 h2
    refine ⟨handleFetch_client_limited hmac upstream doCall req env nowMs st
      hauth hp hend hq hRL hsig rb1 rb2 h1 h2, ?_, ?_⟩
    · have hrb2 : rb2 = (isRateLimitedInMemory ("client:" ++ jsOrStr req.hClientId "default")
          (max 10 (⌊effectiveLimit env / 2⌋ : ℚ)) nowMs rb1).2 := (congrArg Prod.snd h2).symm
      rw [hrb2]
      exact isRateLimitedInMemory_apply_ne _ _ _ _ _
        (ipKey_ne_clientKey (clientIp req) (jsOrStr req.hClientId "default"))
    · intro entry he hw
      have hrb1 : rb1 = (isRateLimitedInMemory ("ip:" ++ clientIp req)
          (effectiveLimit env) nowMs st.rateBucket).2 := (congrArg Prod.snd h1).symm
      rw [hrb1]
      exact isRateLimitedInMemory_apply_same _ _ _ _ entry he hw

/-- Witness for C10: the baseline request with 3 IP units and 100 client
units consumed is denied 429 on the client key, yet the IP counter in the
final state shows 4 units consumed. -/
theorem c10_denied_consumes_witness :
    handleFetch hmacConst upstream200 doThrow baseReq baseEnv 5 ⟨rbBoth, fun _ => none⟩ =
      Except.ok ⟨tooManyRequests,
        ⟨(isRateLimitedInMemory ("client:" ++ jsOrStr baseReq.hClientId "default")
            (max 10 (⌊effectiveLimit baseEnv / 2⌋ : ℚ)) 5
            (isRateLimitedInMemory ("ip:" ++ clientIp baseReq) (effectiveLimit baseEnv) 5
              rbBoth).2).2, fun _ => none⟩, none⟩ ∧
    ((isRateLimitedInMemory ("client:" ++ jsOrStr baseReq.hClientId "default")
        (max 10 (⌊effectiveLimit baseEnv / 2⌋ : ℚ)) 5
        (isRateLimitedInMemory ("ip:" ++ clientIp baseReq) (effectiveLimit baseEnv) 5
          rbBoth).2).2) ("ip:" ++ clientIp baseReq) = some ⟨4, 0⟩ := by
  have hL : effectiveLimit baseEnv = 120 := by
    rw [effectiveLimit_eq, show jsOrStr baseEnv.MAX_REQUESTS_PER_MINUTE "120" = "120" from rfl,
      jsNumber_120]
    norm_num
  have hhalf : max 10 (⌊effectiveLimit baseEnv / 2⌋ : ℚ) = 60 := by
    rw [hL, show (120 : ℚ) / 2 = 60 by norm_num]
    norm_num
  have h1 : isRateLimitedInMemory ("ip:" ++ clientIp baseReq) (effectiveLimit baseEnv) 5
      rbBoth = (false, (isRateLimitedInMemory ("ip:" ++ clientIp baseReq)
        (effectiveLimit baseEnv) 5 rbBoth).2) := by
    refine Prod.ext ?_ rfl
    rw [hL]
    decide
  have h2 : isRateLimitedInMemory ("client:" ++ jsOrStr baseReq.hClientId "default")
      (max 10 (⌊effectiveLimit baseEnv / 2⌋ : ℚ)) 5
      (isRateLimitedInMemory ("ip:" ++ clientIp baseReq) (effectiveLimit baseEnv) 5
        rbBoth).2 =
      (true, (isRateLimitedInMemory ("client:" ++ jsOrStr baseReq.hClientId "default")
        (max 10 (⌊effectiveLimit baseEnv / 2⌋ : ℚ)) 5
        (isRateLimitedInMemory ("ip:" ++ clientIp baseReq) (effectiveLimit baseEnv) 5
          rbBoth).2).2) := by
    refine Prod.ext ?_ rfl
    rw [hhalf, hL]
    decide
  have h := c10_denied_consumes.2.2 hmacConst upstream200 doThrow baseReq baseEnv 5
    ⟨rbBoth, fun _ => none⟩ _ _ (by decide) (by decide) (by decide) (by decide) rfl
    (by decide) h1 h2
  refine ⟨h.1, ?_⟩
  rw [h.2.1]
  exact (h.2.2 ⟨3, 0⟩ (by decide) (by decide)).trans rfl

/-- The verifier's seconds clock: `Math.floor(Date.now() / 1000)`. -/
def nowSec (nowMs : Int) : Int := Int.fdiv nowMs 1000

/-- The replay-cache composite key `clientId:nonce` of a request. -/
def nonceKeyOf (req : Req) : String :=
  jsOrStr req.hClientId "default" ++ ":" ++ req.hNonce.getD ""

/-- The canonical payload `ts.nonce.clientId.GET.pathAndQuery`. -/
def payloadOf (req : Req) (pathAndQuery : String) : String :=
  req.hTimestamp.getD "" ++ "." ++ req.hNonce.getD "" ++ "." ++
    jsOrStr req.hClientId "default" ++ ".GET." ++ pathAndQuery

/-- Elimination: everything that must hold for `verifySignature` to accept. -/
theorem verifySignature_true_elim (hmac : String → String → String) (req : Req)
    (env : Env) (pq : String) (nowMs : Int) (n0 : String → Option Int)
    (h : (verifySignature hmac req env pq nowMs n0).1 = true) :
    jsFalsy env.WEATHER_PROXY_SIGNING_SECRET = false ∧
    jsFalsy req.hTimestamp = false ∧ jsFalsy req.hNonce = false ∧
    jsFalsy req.hSignature = false ∧
    (jsFalsy env.ALLOWED_PROXY_CLIENT_ID = false →
      jsOrStr req.hClientId "default" = env.ALLOWED_PROXY_CLIENT_ID.getD "") ∧
    (∃ t : ℚ, jsNumber (req.hTimestamp.getD "") = some t ∧
      |((nowSec nowMs : ℤ) : ℚ) - t| ≤ 90) ∧
    cleanNonceCache (nowSec nowMs) n0 (nonceKeyOf req) = none ∧
    req.hSignature.getD "" =
      hmac (env.WEATHER_PROXY_SIGNING_SECRET.getD "") (payloadOf req pq) := by
  simp only [verifySignature] at h
  simp only [nowSec, nonceKeyOf, payloadOf]
  by_cases h1 : jsFalsy env.WEATHER_PROXY_SIGNING_SECRET = true
  · rw [if_pos h1] at h; simp at h
  · rw [if_neg h1] at h
    by_cases h2 : (jsFalsy req.hTimestamp = true ∨ jsFalsy req.hNonce = true ∨
        jsFalsy req.hSignature = true)
    · rw [if_pos h2] at h; simp at h
    · rw [if_neg h2] at h
      by_cases h3 : (¬ jsFalsy env.ALLOWED_PROXY_CLIENT_ID = true ∧
          jsOrStr req.hClientId "default" ≠ env.ALLOWED_PROXY_CLIENT_ID.getD "")
      · rw [if_pos h3] at h; simp at h
      · rw [if_neg h3] at h
        cases hjn : jsNumber (req.hTimestamp.getD "") with
        | none => simp only [hjn] at h; simp at h
        | some t =>
            simp only [hjn] at h
            by_cases h4 : |((Int.fdiv nowMs 1000 : ℤ) : ℚ) - t| > 90
            · rw [if_pos h4] at h; simp at h
            · rw [if_neg h4] at h
              by_cases h5 : (cleanNonceCache (Int.fdiv nowMs 1000) n0
                  (jsOrStr req.hClientId "default" ++ ":" ++ req.hNonce.getD "")).isSome = true
              · rw [if_pos h5] at h; simp at h
              · rw [if_neg h5] at h
                by_cases h6 : req.hSignature.getD "" =
                    hmac (env.WEATHER_PROXY_SIGNING_SECRET.getD "")
                      (req.hTimestamp.getD "" ++ "." ++ req.hNonce.getD "" ++ "." ++
                        jsOrStr req.hClientId "default" ++ ".GET." ++ pq)
                · simp only [not_or, Bool.not_eq_true] at h1 h2
                  refine ⟨h1, h2.1, h2.2.1, h2.2.2, ?_, ⟨t, rfl, not_lt.mp h4⟩, ?_, h6⟩
                  · intro hf
                    by_contra hne
                    exact h3 ⟨by simp [hf], hne⟩
                  · cases hc : cleanNonceCache (Int.fdiv nowMs 1000) n0
                        (jsOrStr req.hClientId "default" ++ ":" ++ req.hNonce.getD "") with
                    | none => rfl
                    | some v => rw [hc] at h5; simp at h5
                · rw [if_neg h6] at h; simp at h

/-- Introduction: on a fully valid signed request, `verifySignature`
accepts and records the nonce with expiry `nowSec + 120` in the purged
cache. -/
theorem verifySignature_eq_of_valid (hmac : String → String → String) (req : Req)
    (env : Env) (pq : String) (nowMs : Int) (n0 : String → Option Int)
    (h1 : jsFalsy env.WEATHER_PROXY_SIGNING_SECRET = false)
    (h2 : jsFalsy req.hTimestamp = false)
    (h3 : jsFalsy req.hNonce = false)
    (h4 : jsFalsy req.hSignature = false)
    (h5 : jsFalsy env.ALLOWED_PROXY_CLIENT_ID = false →
      jsOrStr req.hClientId "default" = env.ALLOWED_PROXY_CLIENT_ID.getD "")
    (t : ℚ) (h6 : jsNumber (req.hTimestamp.getD "") = some t)
    (h7 : |((nowSec nowMs : ℤ) : ℚ) - t| ≤ 90)
    (h8 : cleanNonceCache (nowSec nowMs) n0 (nonceKeyOf req) = none)
    (h9 : req.hSignature.getD "" =
      hmac (env.WEATHER_PROXY_SIGNING_SECRET.getD "") (payloadOf req pq)) :
    verifySignature hmac req env pq nowMs n0 =
      (true, Function.update (cleanNonceCache (nowSec nowMs) n0) (nonceKeyOf req)
        (some (nowSec nowMs + 120))) := by
  simp only [nowSec, nonceKeyOf, payloadOf] at h7 h8 h9 ⊢
  simp only [verifySignature]
  rw [if_neg (by simp [h1]), if_neg (by simp [h2, h3, h4]),
    if_neg (by rintro ⟨ha, hb⟩; exact hb (h5 (by simpa using ha)))]
  simp only [h6]
  rw [if_neg (not_lt.mpr h7), if_neg (by simp [h8]), if_pos h9]

/-- C1: when `verifySignature` accepts, the (clientId, nonce) composite is
inserted into the replay cache with expiry `nowSec + 120`, expired entries
having been purged on the same call; and any second request presenting the
identical headers while that entry is still live is rejected — by
`verifySignature` returning false, and by the gateway with a 401 — with no
outbound call. -/
theorem c1_nonce_at_most_once (hmac : String → String → String) (req : Req)
    (env : Env) (pq : String) (now1 : Int) (n0 n1 : String → Option Int)
    (h1 : verifySignature hmac req env pq now1 n0 = (true, n1)) :
    n1 = Function.update (cleanNonceCache (nowSec now1) n0) (nonceKeyOf req)
      (some (nowSec now1 + 120)) ∧
    (∀ now2 : Int, nowSec now2 < nowSec now1 + 120 →
      (verifySignature hmac req env pq now2 n1).1 = false) ∧
    (∀ upstream doCall (now2 : Int) st,
      st.nonceSeen = n1 →
      pq = req.urlPathname ++ req.urlSearch →
      toBool env.REQUIRE_SIGNED_REQUESTS = true →
      req.authorization.getD "" = "Bearer " ++ env.WEATHER_PROXY_BEARER_TOKEN →
      strStartsWith req.urlPathname "/weatherapi/" = true →
      strDrop req.urlPathname ("/weatherapi/".length) ∈ ALLOWED_ENDPOINTS →
      validateQuery (strDrop req.urlPathname ("/weatherapi/".length)) req.searchParams = true →
      nowSec now2 < nowSec now1 + 120 →
      ∃ r, handleFetch hmac upstream doCall req env now2 st = Except.ok r ∧
        r.resp.status = 401 ∧ r.outbound = none) := by
  obtain ⟨c1, c2, c3, c4, c5, ⟨t, hjn, hfresh⟩, c7, c8⟩ :=
    verifySignature_true_elim hmac req env pq now1 n0 (by rw [h1])
  have heq := verifySignature_eq_of_valid hmac req env pq now1 n0 c1 c2 c3 c4 c5 t hjn hfresh c7 c8
  have ha : n1 = Function.update (cleanNonceCache (nowSec now1) n0) (nonceKeyOf req)
      (some (nowSec now1 + 120)) := congrArg Prod.snd (h1.symm.trans heq)
  have hb : ∀ now2 : Int, nowSec now2 < nowSec now1 + 120 →
      (verifySignature hmac req env pq now2 n1).1 = false := by
    intro now2 hlt
    cases hv : (verifySignature hmac req env pq now2 n1).1 with
    | false => rfl
    | true =>
        obtain ⟨_, _, _, _, _, _, c7', _⟩ :=
          verifySignature_true_elim hmac req env pq now2 n1 hv
        rw [ha] at c7'
        simp only [cleanNonceCache, Function.update_same] at c7'
        rw [if_neg (not_le.mpr hlt)] at c7'
        simp at c7'
  refine ⟨ha, hb, ?_⟩
  intro upstream doCall now2 st hst hpq hsr hauth hp hend hq hlt
  have hv := hb now2 hlt
  rw [hpq] at hv
  refine ⟨⟨unauthorized, ⟨st.rateBucket,
      (verifySignature hmac req env (req.urlPathname ++ req.urlSearch) now2 n1).2⟩, none⟩,
    ?_, rfl, rfl⟩
  simp only [handleFetch]
  rw [if_neg (by simp [hauth]), if_neg (by simp [hp]), if_neg (by simp [hend]),
    if_neg (by simp [hq]), hsr, hst]
  simp [hv]

/-- An environment with signing required, secret `SEC`, in-memory limits. -/
def envSigned : Env := ⟨"APIKEY", "TOK", some "SEC", none, some "true", none, false⟩

/-- A correctly signed request for `envSigned` at 10 seconds: the
signature header carries `hmacTag` of the canonical payload. -/
def reqSigned : Req := ⟨some "Bearer TOK", "/weatherapi/current.json", "?q=D",
  [("q", "D")], some "10", some "N1",
  some "SEC|10.N1.default.GET./weatherapi/current.json?q=D", none, some "1.2.3.4"⟩

/-- The replay cache after `reqSigned` is accepted at 10000 ms. -/
def n1Signed : String → Option Int :=
  Function.update (cleanNonceCache (nowSec 10000) (fun _ => none)) (nonceKeyOf reqSigned)
    (some (nowSec 10000 + 120))

/-- Witness for C1: the concrete signed request is accepted at 10 s, and
replaying it at 50 s (within the 120 s lifetime) is rejected by the
verifier and answered 401 by the gateway. -/
theorem c1_nonce_at_most_once_witness :
    (verifySignature hmacTag reqSigned envSigned "/weatherapi/current.json?q=D"
        50000 n1Signed).1 = false ∧
    (∃ r, handleFetch hmacTag upstream200 doThrow reqSigned envSigned 50000
        ⟨fun _ => none, n1Signed⟩ = Except.ok r ∧ r.resp.status = 401 ∧
      r.outbound = none) := by
  have hacc : verifySignature hmacTag reqSigned envSigned "/weatherapi/current.json?q=D"
      10000 (fun _ => none) = (true, n1Signed) :=
    verifySignature_eq_of_valid hmacTag reqSigned envSigned "/weatherapi/current.json?q=D"
      10000 (fun _ => none) (by decide) (by decide) (by decide) (by decide)
      (fun hf => absurd hf (by decide)) 10 (by decide)
      (by rw [show nowSec 10000 = 10 from rfl]; norm_num) rfl (by decide)
  have h := c1_nonce_at_most_once hmacTag reqSigned envSigned
    "/weatherapi/current.json?q=D" 10000 (fun _ => none) n1Signed hacc
  exact ⟨h.2.1 50000 (by decide),
    h.2.2 upstream200 doThrow 50000 ⟨fun _ => none, n1Signed⟩ rfl (by decide) (by decide)
      (by decide) (by decide) (by decide) (by decide) (by decide)⟩

/-- C2: `verifySignature` returns false (it never throws: it is a total
function into `Bool`) exactly when the signing secret is unconfigured, a
required header is missing, the timestamp is not finite, the timestamp is
more than 90 s from now, the (clientId, nonce) composite is live in the
(purged) replay cache, a configured allow-listed client id differs, or the
HMAC over `ts.nonce.clientId.GET.pathAndQuery` differs from the supplied
signature; and the gateway maps a false verdict to a 401 response. -/
theorem c2_verify_false_cases (hmac : String → String → String) (req : Req)
    (env : Env) (pq : String) (nowMs : Int) (n0 : String → Option Int) :
    ((verifySignature hmac req env pq nowMs n0).1 = false ↔
      (jsFalsy env.WEATHER_PROXY_SIGNING_SECRET = true ∨
       jsFalsy req.hTimestamp = true ∨ jsFalsy req.hNonce = true ∨
       jsFalsy req.hSignature = true ∨
       jsNumber (req.hTimestamp.getD "") = none ∨
       (∃ t : ℚ, jsNumber (req.hTimestamp.getD "") = some t ∧
         |((nowSec nowMs : ℤ) : ℚ) - t| > 90) ∨
       cleanNonceCache (nowSec nowMs) n0 (nonceKeyOf req) ≠ none ∨
       (jsFalsy env.ALLOWED_PROXY_CLIENT_ID = false ∧
         jsOrStr req.hClientId "default" ≠ env.ALLOWED_PROXY_CLIENT_ID.getD "") ∨
       req.hSignature.getD "" ≠
         hmac (env.WEATHER_PROXY_SIGNING_SECRET.getD "") (payloadOf req pq))) ∧
    (∀ upstream doCall st,
      toBool env.REQUIRE_SIGNED_REQUESTS = true →
      req.authorization.getD "" = "Bearer " ++ env.WEATHER_PROXY_BEARER_TOKEN →
      strStartsWith req.urlPathname "/weatherapi/" = true →
      strDrop req.urlPathname ("/weatherapi/".length) ∈ ALLOWED_ENDPOINTS →
      validateQuery (strDrop req.urlPathname ("/weatherapi/".length)) req.searchParams = true →
      (verifySignature hmac req env (req.urlPathname ++ req.urlSearch) nowMs
        st.nonceSeen).1 = false →
      ∃ r, handleFetch hmac upstream doCall req env nowMs st = Except.ok r ∧
        r.resp.status = 401 ∧ r.outbound = none) := by
  constructor
  · constructor
    · intro h
      by_contra hd
      push_neg at hd
      obtain ⟨d1, d2, d3, d4, d5, d6, d7, d8, d9⟩ := hd
      simp only [ne_eq, Bool.not_eq_true] at d1 d2 d3 d4
      obtain ⟨t, hsome⟩ := Option.ne_none_iff_exists'.mp d5
      have hvalid := verifySignature_eq_of_valid hmac req env pq nowMs n0 d1 d2 d3 d4
        d8 t hsome (d6 t hsome) d7 d9
      rw [hvalid] at h
      simp at h
    · intro hd
      cases hv : (verifySignature hmac req env pq nowMs n0).1 with
      | false => rfl
      | true =>
          exfalso
          obtain ⟨c1, c2, c3, c4, c5, ⟨t, hjn, hle⟩, c7, c8⟩ :=
            verifySignature_true_elim hmac req env pq nowMs n0 hv
          rcases hd with d | d | d | d | d | ⟨t', hjn', hgt⟩ | d | ⟨hfa, hne⟩ | d
          · rw [c1] at d; cases d
          · rw [c2] at d; cases d
          · rw [c3] at d; cases d
          · rw [c4] at d; cases d
          · rw [hjn] at d; cases d
          · rw [hjn] at hjn'
            obtain rfl := Option.some_inj.mp hjn'
            exact absurd hgt (not_lt.mpr hle)
          · exact d c7
          · exact hne (c5 hfa)
          · exact d c8
  · intro upstream doCall st hsr hauth hp hend hq hv
    refine ⟨⟨unauthorized, ⟨st.rateBucket, (verifySignature hmac req env
        (req.urlPathname ++ req.urlSearch) nowMs st.nonceSeen).2⟩, none⟩, ?_, rfl, rfl⟩
    simp only [handleFetch]
    rw [if_neg (by simp [hauth]), if_neg (by simp [hp]), if_neg (by simp [hend]),
      if_neg (by simp [hq]), hsr]
    simp [hv]

/-- Witness for C2: the correctly signed `reqSigned` presented at 200 s
(timestamp skew 190 s > 90 s) is rejected by the verifier and answered 401
by the gateway even though the signature is mathematically correct. -/
theorem c2_verify_false_cases_witness :
    (verifySignature hmacTag reqSigned envSigned "/weatherapi/current.json?q=D" 200000
        (fun _ => none)).1 = false ∧
    (∃ r, handleFetch hmacTag upstream200 doThrow reqSigned envSigned 200000
        ⟨fun _ => none, fun _ => none⟩ = Except.ok r ∧ r.resp.status = 401 ∧
      r.outbound = none) := by
  have h := c2_verify_false_cases hmacTag reqSigned envSigned
    "/weatherapi/current.json?q=D" 200000 (fun _ => none)
  have hfalse : (verifySignature hmacTag reqSigned envSigned
      "/weatherapi/current.json?q=D" 200000 (fun _ => none)).1 = false :=
    h.1.mpr (Or.inr (Or.inr (Or.inr (Or.inr (Or.inr (Or.inl ⟨10, by decide,
      by rw [show nowSec 200000 = 200 from rfl]; norm_num⟩))))))
  exact ⟨hfalse, h.2 upstream200 doThrow ⟨fun _ => none, fun _ => none⟩ (by decide)
    (by decide) (by decide) (by decide) (by decide) hfalse⟩

/-- `set` on a list without the key appends the pair. -/
theorem spSet_of_not_mem (acc : List (String × String)) (k v : String)
    (h : k ∉ acc.map Prod.fst) : spSet acc k v = acc ++ [(k, v)] := by
  induction acc with
  | nil => rfl
  | cons p rest ih =>
      simp only [List.map_cons, List.mem_cons] at h
      push_neg at h
      rw [spSet, if_neg (fun hk => h.1 hk.symm), ih h.2]
      rfl

/-- Folding `set` over pairwise-distinct keys reproduces the list. -/
theorem foldl_spSet (ps : List (String × String)) (init : List (String × String))
    (h : ((init ++ ps).map Prod.fst).Nodup) :
    ps.foldl (fun acc p => spSet acc p.1 p.2) init = init ++ ps := by
  induction ps generalizing init with
  | nil => simp
  | cons p rest ih =>
      rw [List.foldl_cons]
      have hmem : p.1 ∉ init.map Prod.fst := by
        rw [List.map_append, List.nodup_append] at h
        intro hin
        exact h.2.2 hin (by simp)
      rw [spSet_of_not_mem init p.1 p.2 hmem]
      have hre : (init ++ [(p.1, p.2)]) ++ rest = init ++ p :: rest := by simp
      rw [ih (init ++ [(p.1, p.2)]) (by rw [hre]; exact h), hre]

/-- `get` after `set` of the same key. -/
theorem paramsGet_spSet_same (ps : List (String × String)) (k v : String) :
    paramsGet (spSet ps k v) k = some v := by
  induction ps with
  | nil => simp [spSet, paramsGet, List.find?]
  | cons p rest ih =>
      by_cases hk : p.1 = k
      · simp [spSet, hk, paramsGet, List.find?]
      · rw [spSet, if_neg hk]
        unfold paramsGet at ih ⊢
        have h1 : (p.1 == k) = false := by simp [hk]
        simp only [List.find?_cons, h1]
        exact ih

/-- `find?` by one key ignores entries filtered out by a different key. -/
theorem find?_filter_ne (rest : List (String × String)) (k k' : String) (h : k' ≠ k) :
    (rest.filter (fun q => q.1 ≠ k)).find? (fun p => p.1 == k') =
      rest.find? (fun p => p.1 == k') := by
  induction rest with
  | nil => rfl
  | cons p l ih =>
      by_cases hp : p.1 = k
      · have h1 : (p.1 == k') = false := by simp [hp, Ne.symm h]
        have h2 : (decide (p.1 ≠ k)) = false := by simp [hp]
        simp only [List.filter_cons, h2, Bool.false_eq_true, if_false, List.find?_cons, h1, ih]
      · have h2 : (decide (p.1 ≠ k)) = true := by simp [hp]
        simp only [List.filter_cons, h2, if_true, List.find?_cons]
        cases hpk : (p.1 == k') with
        | true => rfl
        | false => exact ih

/-- `get` of another key after `set`. -/
theorem paramsGet_spSet_ne (ps : List (String × String)) (k v k' : String)
    (h : k' ≠ k) : paramsGet (spSet ps k v) k' = paramsGet ps k' := by
  induction ps with
  | nil => simp [spSet, paramsGet, List.find?, show (k == k') = false by simp [Ne.symm h]]
  | cons p rest ih =>
      by_cases hk : p.1 = k
      · rw [spSet, if_pos hk]
        unfold paramsGet
        have h1 : (k == k') = false := by simp [Ne.symm h]
        have h2 : (p.1 == k') = false := by simp [hk, Ne.symm h]
        simp only [List.find?_cons, h1, h2]
        rw [find?_filter_ne rest k k' h]
      · rw [spSet, if_neg hk]
        unfold paramsGet at ih ⊢
        simp only [List.find?_cons]
        cases hpk : (p.1 == k') with
        | true => rfl
        | false => exact ih

/-- `buildUpstreamParams` on distinct keys is a single `set` of `key`. -/
theorem buildUpstreamParams_nodup (ps : List (String × String)) (secret : String)
    (h : (ps.map Prod.fst).Nodup) :
    buildUpstreamParams ps secret = spSet ps "key" secret := by
  unfold buildUpstreamParams
  rw [foldl_spSet ps [] (by simpa using h)]
  rfl

/-- A valid request carrying the same query key twice. -/
def reqDupQ : Req := ⟨some "Bearer TOK", "/weatherapi/current.json", "?q=a&q=b",
  [("q", "a"), ("q", "b")], none, none, none, none, none⟩

/-- C8 counterexample: with the duplicate query `?q=a&q=b`, the
caller-supplied pair (q, a) is dropped from the outbound request — only
the last value of a repeated key survives `searchParams.set` — so not
every caller-supplied parameter is carried unmodified; the first `q`
value visible inbound (a) differs from the one forwarded (b). -/
theorem c8_counterexample :
    ("q", "a") ∈ reqDupQ.searchParams ∧
    resultOutbound (handleFetch hmacConst upstream200 doThrow reqDupQ baseEnv 0 emptyState) =
      some ⟨"current.json", [("q", "b"), ("key", "APIKEY")]⟩ ∧
    ("q", "a") ∉ [("q", "b"), ("key", "APIKEY")] ∧
    paramsGet reqDupQ.searchParams "q" = some "a" ∧
    paramsGet [("q", "b"), ("key", "APIKEY")] "q" = some "b" := by
  exact ⟨by decide, rfl, by decide, by decide, by decide⟩

/-- C8 amended: for every request that passes all checks (and whose query
keys are pairwise distinct — when a key is repeated only its last value is
forwarded), the single outbound GET carries every caller-supplied query
parameter unmodified except `key`, which is set to the server-held secret;
and the response has the upstream status and body, `Cache-Control:
no-store`, and Content-Type defaulting to application/json. -/
theorem c8_forwarding (hmac : String → String → String)
    (upstream : OutboundReq → UpstreamResp) (doCall : String → DOResult)
    (req : Req) (env : Env) (nowMs : Int) (st : WorkerState) (r : FetchResult)
    (ob : OutboundReq)
    (hnd : (req.searchParams.map Prod.fst).Nodup)
    (h : handleFetch hmac upstream doCall req env nowMs st = Except.ok r)
    (hob : r.outbound = some ob) :
    ob.params = spSet req.searchParams "key" env.WEATHER_API_KEY ∧
    paramsGet ob.params "key" = some env.WEATHER_API_KEY ∧
    (∀ k, k ≠ "key" → paramsGet ob.params k = paramsGet req.searchParams k) ∧
    r.resp.status = (upstream ob).status ∧
    r.resp.body = (upstream ob).body ∧
    r.resp.headers = [("Content-Type", jsOrStr (upstream ob).contentType "application/json"),
      ("Cache-Control", "no-store")] := by
  simp only [handleFetch] at h
  by_cases c1 : req.authorization.getD "" ≠ "Bearer " ++ env.WEATHER_PROXY_BEARER_TOKEN
  · rw [if_pos c1] at h
    injection h with h'; subst h'; simp at hob
  · rw [if_neg c1] at h
    by_cases c2 : strStartsWith req.urlPathname "/weatherapi/" = false
    · rw [if_pos c2] at h
      injection h with h'; subst h'; simp at hob
    · rw [if_neg c2] at h
      by_cases c3 : strDrop req.urlPathname ("/weatherapi/".length) ∉ ALLOWED_ENDPOINTS
      · rw [if_pos c3] at h
        injection h with h'; subst h'; simp at hob
      · rw [if_neg c3] at h
        by_cases c4 : validateQuery (strDrop req.urlPathname ("/weatherapi/".length))
            req.searchParams = false
        · rw [if_pos c4] at h
          injection h with h'; subst h'; simp at hob
        · rw [if_neg c4] at h
          by_cases c5 : (if toBool env.REQUIRE_SIGNED_REQUESTS = true then
              verifySignature hmac req env (req.urlPathname ++ req.urlSearch) nowMs st.nonceSeen
            else (true, st.nonceSeen)).1 = false
          · rw [if_pos c5] at h
            injection h with h'; subst h'; simp at hob
          · rw [if_neg c5] at h
            rcases hg1 : isRateLimitedGlobal env doCall ("ip:" ++ clientIp req)
                (effectiveLimit env) nowMs st.rateBucket with e | ⟨lim1, rb1⟩
            · simp only [hg1] at h
              simp at h
            · simp only [hg1] at h
              cases lim1 with
              | true =>
                  rw [if_pos rfl] at h
                  injection h with h'; subst h'; simp at hob
              | false =>
                  rw [if_neg (by simp)] at h
                  rcases hg2 : isRateLimitedGlobal env doCall
                      ("client:" ++ jsOrStr req.hClientId "default")
                      (max 10 (⌊effectiveLimit env / 2⌋ : ℚ)) nowMs rb1 with e | ⟨lim2, rb2⟩
                  · simp only [hg2] at h
                    simp at h
                  · simp only [hg2] at h
                    cases lim2 with
                    | true =>
                        rw [if_pos rfl] at h
                        injection h with h'; subst h'; simp at hob
                    | false =>
                        rw [if_neg (by simp)] at h
                        injection h with h'; subst h'
                        have hOb : (⟨strDrop req.urlPathname ("/weatherapi/".length),
                            buildUpstreamParams req.searchParams env.WEATHER_API_KEY⟩ :
                            OutboundReq) = ob := Option.some_inj.mp hob
                        subst hOb
                        refine ⟨?_, ?_, ?_, rfl, rfl, rfl⟩
                        · show buildUpstreamParams req.searchParams env.WEATHER_API_KEY = _
                          exact buildUpstreamParams_nodup req.searchParams
                            env.WEATHER_API_KEY hnd
                        · show paramsGet (buildUpstreamParams req.searchParams
                            env.WEATHER_API_KEY) "key" = some env.WEATHER_API_KEY
                          rw [buildUpstreamParams_nodup req.searchParams
                            env.WEATHER_API_KEY hnd]
                          exact paramsGet_spSet_same req.searchParams "key"
                            env.WEATHER_API_KEY
                        · intro k hk
                          show paramsGet (buildUpstreamParams req.searchParams
                            env.WEATHER_API_KEY) k = paramsGet req.searchParams k
                          rw [buildUpstreamParams_nodup req.searchParams
                            env.WEATHER_API_KEY hnd]
                          exact paramsGet_spSet_ne req.searchParams "key"
                            env.WEATHER_API_KEY k hk

/-- Witness for C8 amended: the baseline request's outbound parameters are
its own `q=Denver` plus `key=APIKEY`, and the response carries the
upstream's status and body with no-store caching and the default
content-type. -/
theorem c8_forwarding_witness :
    paramsGet (fwdReq baseReq baseEnv).params "key" = some baseEnv.WEATHER_API_KEY ∧
    paramsGet (fwdReq baseReq baseEnv).params "q" = some "Denver" := by
  have hrun := handleFetch_forward hmacConst upstream200 doThrow baseReq baseEnv 0 emptyState
    (by decide) (by decide) (by decide) (by decide) rfl (by decide) rfl rfl
  have h := c8_forwarding hmacConst upstream200 doThrow baseReq baseEnv 0 emptyState
    _ (fwdReq baseReq baseEnv) (by decide) hrun rfl
  exact ⟨h.2.1, (h.2.2.1 "q" (by decide)).trans (by decide)⟩

end WeatherProxy
